import Mathlib

/-!
Shallow embedding of the MealViewer API client
(`src/MealViewerClient.ts`, `src/types.ts`).

JavaScript strings are modelled by Lean `String`, with the JS operations
(`split`, `toLowerCase`, `includes`, `padStart`, number-to-string coercion)
given explicit executable definitions over the character list `String.data`,
matching the ECMAScript semantics the source relies on.  Optional (possibly
`undefined`) fields are `Option`s; thrown `MealViewerError`s are `Except`
errors.  The HTTP transport is external to the repository: `getMenu` is
parameterised by the outcome the transport would produce for the call, and the
trace records which URL (if any) was requested, so that "fails before any
network call" is expressible.
-/

/-- Error codes of `MealViewerError` (`src/types.ts`). -/
inductive ErrCode where
  | SCHOOL_NOT_FOUND
  | API_ERROR
  | INVALID_DATE
  | NETWORK_ERROR
deriving DecidableEq, Repr

/-- `MealViewerError` (`src/types.ts`): a message plus a typed code. -/
structure MealViewerError where
  message : String
  code : ErrCode
deriving DecidableEq, Repr

/- ---------------------------------------------------------------------
JS string primitives used by the client, modelled executably.
--------------------------------------------------------------------- -/

/-- JS `s.split(sep)` for a one-character separator, on character lists:
`[] ↦ [[]]` (JS `"".split('-') = [""]`), otherwise split at every
occurrence of `c`. -/
def splitOnChar (c : Char) : List Char → List (List Char)
  | [] => [[]]
  | x :: xs =>
    match splitOnChar c xs with
    | [] => [[x]]
    | h :: t => if x = c then [] :: h :: t else (x :: h) :: t

/-- JS `s.split('-')` on strings. -/
def jsSplitDash (s : String) : List String :=
  (splitOnChar '-' s.data).map String.mk

/-- JS `s.toLowerCase()` (ASCII case mapping, as used by the source on
block names). -/
def jsToLower (s : String) : String :=
  ⟨s.data.map Char.toLower⟩

/-- JS `s.includes(pat)`: substring containment. -/
def jsIncludes (s pat : String) : Bool :=
  decide (List.IsInfix pat.data s.data)

/-- Decimal digit character for `n < 10`. -/
def digitChar (n : Nat) : Char := Char.ofNat (48 + n)

/-- Decimal digits, most significant first, structurally recursive on a
fuel argument (`n + 1` is always enough fuel since `n / 10 < n` for
`n ≥ 10`). -/
def natDigitsAux : Nat → Nat → List Char
  | 0, _ => []
  | fuel + 1, n =>
    if n < 10 then [digitChar n]
    else natDigitsAux fuel (n / 10) ++ [digitChar (n % 10)]

/-- Decimal digits of a natural number, most significant first
(JS `String(n)` for a nonnegative integer). -/
def natDigits (n : Nat) : List Char := natDigitsAux (n + 1) n

/-- JS `String(n)` for a nonnegative integer. -/
def natToStr (n : Nat) : String := ⟨natDigits n⟩

/-- JS `s.padStart(2, '0')`. -/
def padStart2 (s : String) : String :=
  if 2 ≤ s.length then s else ⟨List.replicate (2 - s.length) '0' ++ s.data⟩

/- ---------------------------------------------------------------------
Request builder (`formatDate`, `MealViewerClient.ts` lines 71–86).
--------------------------------------------------------------------- -/

/-- A JS `Date` value as the source observes it: the values returned by
`getMonth()` (0-indexed month), `getDate()` (day of month) and
`getFullYear()`. -/
structure JsDate where
  month0 : Nat
  dayOfMonth : Nat
  fullYear : Nat
deriving DecidableEq, Repr

/-- The `Date | string` argument of `formatDate`. -/
inductive DateInput where
  | str (s : String)
  | date (d : JsDate)
deriving DecidableEq, Repr

/-- `formatDate` (`MealViewerClient.ts` lines 71–86): a string is split on
`'-'`, required to have exactly three components, and rearranged to
month-day-year; a `Date` value is formatted from its 1-indexed month and
day, zero-padded to two digits, and its year. -/
def formatDate : DateInput → Except MealViewerError String
  | .str s =>
    let parts := jsSplitDash s
    if parts.length ≠ 3 then
      .error ⟨"Invalid date format: " ++ s ++ ". Expected YYYY-MM-DD", .INVALID_DATE⟩
    else
      .ok (parts.getD 1 "" ++ "-" ++ parts.getD 2 "" ++ "-" ++ parts.getD 0 "")
  | .date d =>
    .ok (padStart2 (natToStr (d.month0 + 1)) ++ "-" ++
         padStart2 (natToStr d.dayOfMonth) ++ "-" ++ natToStr d.fullYear)

/-- The spec's output-format requirement, in its own words: the date
segment splits on dashes into month, day, year with month and day
zero-padded to two digits. -/
def isPaddedMMDDYYYY (seg : String) : Bool :=
  match jsSplitDash seg with
  | [m, d, _y] => m.length = 2 && d.length = 2
  | _ => false

/- ---------------------------------------------------------------------
Error classifier (`handleError`, `MealViewerClient.ts` lines 156–189).
--------------------------------------------------------------------- -/

/-- A failure as `handleError` observes it.  `isAxios` models
`axios.isAxiosError(error)`; `status` models `response?.status` (absent
when there is no response); `code` models the optional transport error
code; `message` is the error's message (for a non-axios failure, the
stringified cause `error instanceof Error ? error.message : String(error)`). -/
structure Failure where
  isAxios : Bool
  status : Option Nat
  code : Option String
  message : String
deriving DecidableEq, Repr

/-- `handleError` (`MealViewerClient.ts` lines 156–189), as the
`MealViewerError` it throws. -/
def handleError (e : Failure) : MealViewerError :=
  if e.isAxios then
    if e.status = some 404 then
      ⟨"School not found. Please check the school name and try again.",
       .SCHOOL_NOT_FOUND⟩
    else if e.code = some "ECONNREFUSED" ∨ e.code = some "ETIMEDOUT" then
      ⟨"Network error: " ++ e.code.getD "" ++ ". Please check your internet connection.",
       .NETWORK_ERROR⟩
    else
      ⟨"API request failed: " ++ e.message, .API_ERROR⟩
  else
    ⟨"Unexpected error: " ++ e.message, .API_ERROR⟩

/- ---------------------------------------------------------------------
Response mapper (`parseResponse`, `MealViewerClient.ts` lines 91–151)
and the raw/output data model (`src/types.ts`).
--------------------------------------------------------------------- -/

/-- Raw food item (`RawMealViewerResponse … foodItemList.data` entries).
The `nutritionals`/`allergens` sub-structures are never read by the
mapper and are omitted.  Numeric payload values do not occur here. -/
structure RawFoodItem where
  item_Name : String
  item_AltName : Option String
  description : Option String
  item_Type : String
  serving_Size : String
deriving DecidableEq, Repr

/-- Raw cafeteria line; `foodItemList` models `foodItemList.data`. -/
structure RawCafeteriaLine where
  name : String
  foodItemList : List RawFoodItem
deriving DecidableEq, Repr

/-- Raw menu block; `cafeteriaLineList` models `cafeteriaLineList.data`. -/
structure RawMenuBlock where
  blockName : String
  cafeteriaLineList : List RawCafeteriaLine
deriving DecidableEq, Repr

/-- Raw day schedule with its `dateInformation.dateFull` ISO string. -/
structure RawMenuSchedule where
  dateFull : String
  menuBlocks : List RawMenuBlock
deriving DecidableEq, Repr

/-- Raw top-level `physicalLocation`.  Latitude/longitude are opaque to
the mapper (copied verbatim, never inspected); they are modelled by an
arbitrary decidable carrier, here `Option Int`. -/
structure PhysicalLocation where
  name : String
  address : String
  city : String
  state : Option String
  latitude : Option Int
  longitude : Option Int
deriving DecidableEq, Repr

/-- `RawMealViewerResponse` (`src/types.ts`). -/
structure RawMealViewerResponse where
  physicalLocation : PhysicalLocation
  menuSchedules : List RawMenuSchedule
deriving DecidableEq, Repr

/-- `MealViewerSchool` (`src/types.ts`). -/
structure MealViewerSchool where
  name : String
  address : String
  city : String
  state : Option String
  latitude : Option Int
  longitude : Option Int
deriving DecidableEq, Repr

/-- Output `MenuItem` (`src/types.ts`); `nutrition`/`allergens` are never
populated by the mapper and are omitted. -/
structure MenuItem where
  name : String
  altName : Option String
  description : Option String
  type : String
  servingSize : String
deriving DecidableEq, Repr

/-- Output `CafeteriaLine` (`src/types.ts`). -/
structure CafeteriaLine where
  name : String
  items : List MenuItem
deriving DecidableEq, Repr

/-- `mealPeriod` enum of `MenuBlock` (`src/types.ts`). -/
inductive MealPeriod where
  | Breakfast
  | Lunch
  | Dinner
  | Snack
deriving DecidableEq, Repr

/-- Output `MenuBlock` (`src/types.ts`). -/
structure MenuBlock where
  mealPeriod : MealPeriod
  cafeteriaLines : List CafeteriaLine
deriving DecidableEq, Repr

/-- Output `DailyMenu` (`src/types.ts`).  The source stores
`new Date(schedule.dateInformation.dateFull)`; no claim inspects the
parsed date components, so the `Date` value is modelled by the string it
was constructed from. -/
structure DailyMenu where
  date : String
  school : MealViewerSchool
  meals : List MenuBlock
deriving DecidableEq, Repr

/-- `GetMenuResponse` (`src/types.ts`). -/
structure GetMenuResponse where
  menus : List DailyMenu
  school : MealViewerSchool
deriving DecidableEq, Repr

/-- JS `x || undefined` for an optional string `x`: `undefined` and the
empty string (both falsy) become `undefined`. -/
def jsOrUndefined : Option String → Option String
  | some s => if s = "" then none else some s
  | none => none

/-- Item mapping inside `parseResponse` (`MealViewerClient.ts`
lines 123–131). -/
def mapFoodItem (item : RawFoodItem) : MenuItem :=
  { name := item.item_Name
    altName := jsOrUndefined item.item_AltName
    description := jsOrUndefined item.description
    type := item.item_Type
    servingSize := item.serving_Size }

/-- Cafeteria-line mapping inside `parseResponse` (`MealViewerClient.ts`
lines 121–132). -/
def mapCafeteriaLine (line : RawCafeteriaLine) : CafeteriaLine :=
  { name := line.name
    items := line.foodItemList.map mapFoodItem }

/-- Meal-period detection inside `parseResponse` (`MealViewerClient.ts`
lines 107–119): lowercase the block name, then first match in the order
breakfast, lunch, dinner, snack; default Lunch. -/
def mealPeriodOf (blockName : String) : MealPeriod :=
  let n := jsToLower blockName
  if jsIncludes n "breakfast" then .Breakfast
  else if jsIncludes n "lunch" then .Lunch
  else if jsIncludes n "dinner" then .Dinner
  else if jsIncludes n "snack" then .Snack
  else .Lunch

/-- Menu-block mapping inside `parseResponse` (`MealViewerClient.ts`
lines 106–138). -/
def mapMenuBlock (block : RawMenuBlock) : MenuBlock :=
  { mealPeriod := mealPeriodOf block.blockName
    cafeteriaLines := block.cafeteriaLineList.map mapCafeteriaLine }

/-- School mapping inside `parseResponse` (`MealViewerClient.ts`
lines 93–100). -/
def mapSchool (loc : PhysicalLocation) : MealViewerSchool :=
  { name := loc.name
    address := loc.address
    city := loc.city
    state := loc.state
    latitude := loc.latitude
    longitude := loc.longitude }

/-- `parseResponse` (`MealViewerClient.ts` lines 91–151). -/
def parseResponse (data : RawMealViewerResponse) : GetMenuResponse :=
  let school := mapSchool data.physicalLocation
  { menus := data.menuSchedules.map fun schedule =>
      { date := schedule.dateFull
        school := school
        meals := schedule.menuBlocks.map mapMenuBlock }
    school := school }

/- ---------------------------------------------------------------------
`getMenu` (`MealViewerClient.ts` lines 48–66) and the constructor
(`MealViewerClient.ts` lines 31–43).
--------------------------------------------------------------------- -/

/-- `GetMenuRequest` (`src/types.ts`). -/
structure GetMenuRequest where
  schoolName : String
  startDate : DateInput
  endDate : Option DateInput
deriving DecidableEq, Repr

/-- JS truthiness of a present `Date | string` value: only the empty
string is falsy (a `Date` object is always truthy). -/
def isTruthy : DateInput → Bool
  | .str s => s ≠ ""
  | .date _ => true

/-- What the HTTP transport would produce for the single GET of a call:
either a raw response body or a failure for `handleError` to classify. -/
inductive FetchOutcome where
  | ok (raw : RawMealViewerResponse)
  | err (f : Failure)
deriving DecidableEq, Repr

/-- The observable outcome of one `getMenu` call: its result, and the URL
of the GET it issued (`none` when the call failed before any network
request). -/
structure GetMenuTrace where
  result : Except MealViewerError GetMenuResponse
  requestedUrl : Option String
deriving Repr

/-- The URL template of `getMenu` (`MealViewerClient.ts` line 54). -/
def menuUrl (schoolName startSeg endSeg : String) : String :=
  "/school/" ++ schoolName ++ "/" ++ startSeg ++ "/" ++ endSeg ++ "/"

/-- `getMenu` (`MealViewerClient.ts` lines 48–66), parameterised by the
transport outcome `fetch`.  `formatDate` throws outside the try/catch, so
its errors propagate unclassified and no request is issued; a transport
failure inside the try is classified by `handleError`. -/
def getMenu (fetch : FetchOutcome) (request : GetMenuRequest) : GetMenuTrace :=
  match formatDate request.startDate with
  | .error e => { result := .error e, requestedUrl := none }
  | .ok startDate =>
    match (match request.endDate with
           | some d => if isTruthy d then formatDate d else .ok startDate
           | none => .ok startDate : Except MealViewerError String) with
    | .error e => { result := .error e, requestedUrl := none }
    | .ok endDate =>
      let url := menuUrl request.schoolName startDate endDate
      match fetch with
      | .ok raw => { result := .ok (parseResponse raw), requestedUrl := some url }
      | .err f => { result := .error (handleError f), requestedUrl := some url }

/-- `MealViewerClientConfig` (`MealViewerClient.ts` lines 20–25); absent
fields are `none`. -/
structure MealViewerClientConfig where
  baseURL : Option String
  timeout : Option Nat
  userAgent : Option String
  debug : Option Bool
deriving DecidableEq, Repr

/-- The settings the constructor installs. -/
structure ClientSettings where
  baseURL : String
  timeout : Nat
  userAgent : String
  debug : Bool
deriving DecidableEq, Repr

/-- The constructor (`MealViewerClient.ts` lines 31–43): each `config.x ||
default` replaces a falsy value (absent, `0`, empty string, `false`) by
the default. -/
def mkClient (config : MealViewerClientConfig) : ClientSettings :=
  { debug := match config.debug with
      | some b => b
      | none => false
    baseURL := match config.baseURL with
      | some s => if s = "" then "https://api.mealviewer.com/api/v4" else s
      | none => "https://api.mealviewer.com/api/v4"
    timeout := match config.timeout with
      | some n => if n = 0 then 30000 else n
      | none => 30000
    userAgent := match config.userAgent with
      | some s => if s = "" then "BrandCast/FamilyCast MealViewer Integration" else s
      | none => "BrandCast/FamilyCast MealViewer Integration" }

/- ---------------------------------------------------------------------
Helper lemmas.
--------------------------------------------------------------------- -/

/-- Placeholder raw schedule for out-of-range `getD`. -/
def noSchedule : RawMenuSchedule := ⟨"", []⟩

/-- Placeholder raw block for out-of-range `getD`. -/
def noBlock : RawMenuBlock := ⟨"", []⟩

/-- Placeholder raw line for out-of-range `getD`. -/
def noLine : RawCafeteriaLine := ⟨"", []⟩

/-- Placeholder raw item for out-of-range `getD`. -/
def noFoodItem : RawFoodItem := ⟨"", none, none, "", ""⟩

/-- Placeholder school for out-of-range `getD`. -/
def noSchool : MealViewerSchool := ⟨"", "", "", none, none, none⟩

/-- Placeholder daily menu for out-of-range `getD`. -/
def noDailyMenu : DailyMenu := ⟨"", noSchool, []⟩

/-- Placeholder output block for out-of-range `getD`. -/
def noMenuBlock : MenuBlock := ⟨.Lunch, []⟩

/-- Placeholder output line for out-of-range `getD`. -/
def noCafLine : CafeteriaLine := ⟨"", []⟩

/-- Placeholder output item for out-of-range `getD`. -/
def noMenuItem : MenuItem := ⟨"", none, none, "", ""⟩

lemma getD_map_of_lt {α β : Type} (f : α → β) (l : List α) (i : Nat)
    (da : α) (db : β) (h : i < l.length) :
    (l.map f).getD i db = f (l.getD i da) := by
  rw [List.getD_eq_getElem _ _ (by simpa using h), List.getD_eq_getElem _ _ h,
    List.getElem_map]

lemma splitOnChar_ne_nil (c : Char) (l : List Char) : splitOnChar c l ≠ [] := by
  cases l with
  | nil => simp [splitOnChar]
  | cons x xs =>
    simp only [splitOnChar]
    split
    · simp
    · split <;> simp

lemma splitOnChar_of_not_mem {c : Char} {l : List Char} (h : c ∉ l) :
    splitOnChar c l = [l] := by
  induction l with
  | nil => rfl
  | cons x xs ih =>
    have hx : ¬x = c := fun e => h (e ▸ List.mem_cons_self x xs)
    have hxs : c ∉ xs := fun hc => h (List.mem_cons_of_mem _ hc)
    simp [splitOnChar, ih hxs, hx]

lemma splitOnChar_append {c : Char} {a rest : List Char} (ha : c ∉ a) :
    splitOnChar c (a ++ c :: rest) = a :: splitOnChar c rest := by
  induction a with
  | nil =>
    simp only [List.nil_append, splitOnChar]
    cases h : splitOnChar c rest with
    | nil => exact absurd h (splitOnChar_ne_nil c rest)
    | cons hd tl => simp
  | cons x xs ih =>
    have hx : ¬x = c := fun e => ha (e ▸ List.mem_cons_self x xs)
    have hxs : c ∉ xs := fun hc => ha (List.mem_cons_of_mem _ hc)
    rw [List.cons_append]
    simp only [splitOnChar]
    rw [ih hxs]
    simp [hx]

lemma string_mk_data (s : String) : String.mk s.data = s := rfl

lemma jsSplitDash_triple {a b c : String}
    (ha : '-' ∉ a.data) (hb : '-' ∉ b.data) (hc : '-' ∉ c.data) :
    jsSplitDash (a ++ "-" ++ b ++ "-" ++ c) = [a, b, c] := by
  have hdata : (a ++ "-" ++ b ++ "-" ++ c).data
      = a.data ++ '-' :: (b.data ++ '-' :: c.data) := by
    simp [String.data_append]
  rw [jsSplitDash, hdata, splitOnChar_append ha, splitOnChar_append hb,
    splitOnChar_of_not_mem hc]
  simp [string_mk_data]

lemma digitChar_ne_dash {k : Nat} (h : k < 10) : digitChar k ≠ '-' := by
  interval_cases k <;> decide

lemma dash_not_mem_natDigitsAux (fuel : Nat) : ∀ n, '-' ∉ natDigitsAux fuel n := by
  induction fuel with
  | zero => intro n; simp [natDigitsAux]
  | succ fuel ih =>
    intro n
    simp only [natDigitsAux]
    split
    · intro hmem
      simp only [List.mem_singleton] at hmem
      exact digitChar_ne_dash ‹n < 10› hmem.symm
    · intro hmem
      rcases List.mem_append.mp hmem with h1 | h2
      · exact ih _ h1
      · simp only [List.mem_singleton] at h2
        exact digitChar_ne_dash (Nat.mod_lt _ (by omega)) h2.symm

lemma dash_not_mem_natToStr (n : Nat) : '-' ∉ (natToStr n).data :=
  dash_not_mem_natDigitsAux (n + 1) n

lemma dash_not_mem_padStart2 {s : String} (h : '-' ∉ s.data) :
    '-' ∉ (padStart2 s).data := by
  unfold padStart2
  split
  · exact h
  · intro hmem
    rcases List.mem_append.mp hmem with h1 | h2
    · have := List.eq_of_mem_replicate h1
      simp at this
    · exact h h2

lemma formatDate_str_of_components {y m d : String}
    (hy : '-' ∉ y.data) (hm : '-' ∉ m.data) (hd : '-' ∉ d.data) :
    formatDate (.str (y ++ "-" ++ m ++ "-" ++ d)) = .ok (m ++ "-" ++ d ++ "-" ++ y) := by
  simp [formatDate, jsSplitDash_triple hy hm hd]

/- ---------------------------------------------------------------------
Claim theorems.
--------------------------------------------------------------------- -/

/-- C1, counterexample: the string path of the request builder does not
zero-pad.  The input `"2025-1-5"` passes the three-component check, and
the built date segment is `"1-5-2025"`, whose month and day components
are not two digits — so the output is not always in zero-padded
`MM-DD-YYYY` form. -/
theorem formatDate_padding_counterexample :
    formatDate (.str "2025-1-5") = .ok "1-5-2025"
    ∧ isPaddedMMDDYYYY "1-5-2025" = false :=
  ⟨rfl, by decide⟩

/-- C1 (amended): for every string date made of three dash-free
components `y`, `m`, `d`, the built date segment is the algebraic
`MM-DD-YYYY` rearrangement `m-d-y` with no re-padding; in particular,
whenever the input's month and day components are already two digits
(as in every valid `YYYY-MM-DD` string), the output is in zero-padded
`MM-DD-YYYY` form and equals the zero-padded rearrangement. -/
theorem formatDate_string_rearranges (y m d : String)
    (hy : '-' ∉ y.data) (hm : '-' ∉ m.data) (hd : '-' ∉ d.data) :
    formatDate (.str (y ++ "-" ++ m ++ "-" ++ d)) = .ok (m ++ "-" ++ d ++ "-" ++ y)
    ∧ (m.length = 2 → d.length = 2 →
        isPaddedMMDDYYYY (m ++ "-" ++ d ++ "-" ++ y) = true) := by
  refine ⟨formatDate_str_of_components hy hm hd, fun h2m h2d => ?_⟩
  simp [isPaddedMMDDYYYY, jsSplitDash_triple hm hd hy, h2m, h2d]

/-- C1 witness: `"2025-01-15"` builds the segment `"01-15-2025"`, which
is zero-padded `MM-DD-YYYY`. -/
theorem formatDate_string_rearranges_witness :
    formatDate (.str "2025-01-15") = .ok "01-15-2025"
    ∧ isPaddedMMDDYYYY "01-15-2025" = true := by
  have h := formatDate_string_rearranges "2025" "01" "15"
    (by decide) (by decide) (by decide)
  exact ⟨h.1, h.2 (by decide) (by decide)⟩

/-- C8: for every date value, the request builder extracts the 1-indexed
month, the day and the year directly, never fails (it returns `.ok` of
the zero-padded `MM-DD-YYYY` segment), and produces the same segment as
the equivalent ISO `YYYY-MM-DD` string for the same calendar day. -/
theorem formatDate_date_value_iso_agree (m0 dd y : Nat) :
    formatDate (.date ⟨m0, dd, y⟩)
      = .ok (padStart2 (natToStr (m0 + 1)) ++ "-" ++ padStart2 (natToStr dd) ++ "-"
          ++ natToStr y)
    ∧ formatDate (.str (natToStr y ++ "-" ++ padStart2 (natToStr (m0 + 1)) ++ "-"
          ++ padStart2 (natToStr dd)))
      = formatDate (.date ⟨m0, dd, y⟩) := by
  constructor
  · rfl
  · rw [formatDate_str_of_components (dash_not_mem_natToStr y)
      (dash_not_mem_padStart2 (dash_not_mem_natToStr (m0 + 1)))
      (dash_not_mem_padStart2 (dash_not_mem_natToStr dd))]
    rfl

/-- C2: the error classifier is total (every failure yields one of the
error kinds) and applies its rules in order: a 404 transport failure
yields `SCHOOL_NOT_FOUND` with a fixed message before any other check;
otherwise a transport failure with code `ECONNREFUSED` or `ETIMEDOUT`
yields `NETWORK_ERROR` with the code in the message; otherwise any other
transport failure yields `API_ERROR`; and a failure that is not a
transport failure at all also yields `API_ERROR` with the stringified
cause. -/
theorem handleError_classification (e : Failure) :
    ((handleError e).code = ErrCode.SCHOOL_NOT_FOUND ∨
      (handleError e).code = ErrCode.NETWORK_ERROR ∨
      (handleError e).code = ErrCode.API_ERROR)
    ∧ (e.isAxios = true → e.status = some 404 →
        handleError e =
          ⟨"School not found. Please check the school name and try again.",
           ErrCode.SCHOOL_NOT_FOUND⟩)
    ∧ (∀ c, e.isAxios = true → e.status ≠ some 404 → e.code = some c →
        (c = "ECONNREFUSED" ∨ c = "ETIMEDOUT") →
        handleError e =
          ⟨"Network error: " ++ c ++ ". Please check your internet connection.",
           ErrCode.NETWORK_ERROR⟩
        ∧ List.IsInfix c.data (handleError e).message.data)
    ∧ (e.isAxios = true → e.status ≠ some 404 →
        e.code ≠ some "ECONNREFUSED" → e.code ≠ some "ETIMEDOUT" →
        handleError e = ⟨"API request failed: " ++ e.message, ErrCode.API_ERROR⟩)
    ∧ (e.isAxios = false →
        handleError e = ⟨"Unexpected error: " ++ e.message, ErrCode.API_ERROR⟩) := by
  refine ⟨?_, ?_, ?_, ?_, ?_⟩
  · unfold handleError
    split_ifs <;> simp
  · intro hax h404
    simp [handleError, hax, h404]
  · intro c hax h404 hcode hc
    have heq : handleError e =
        ⟨"Network error: " ++ c ++ ". Please check your internet connection.",
         ErrCode.NETWORK_ERROR⟩ := by
      rcases hc with rfl | rfl <;> simp [handleError, hax, h404, hcode]
    refine ⟨heq, ?_⟩
    rw [heq]
    show List.IsInfix c.data
      (("Network error: " ++ c ++ ". Please check your internet connection.").data)
    rw [String.data_append, String.data_append]
    exact List.infix_append _ _ _
  · intro hax h404 hcr hct
    simp [handleError, hax, h404, hcr, hct]
  · intro hax
    simp [handleError, hax]

/-- C2 witness: a non-404 transport failure with code `ETIMEDOUT` is
classified as `NETWORK_ERROR` with the code in the message. -/
theorem handleError_classification_witness :
    handleError ⟨true, some 500, some "ETIMEDOUT", "m"⟩ =
      ⟨"Network error: ETIMEDOUT. Please check your internet connection.",
       ErrCode.NETWORK_ERROR⟩ :=
  ((handleError_classification ⟨true, some 500, some "ETIMEDOUT", "m"⟩).2.2.1
    "ETIMEDOUT" rfl (by decide) rfl (Or.inr rfl)).1

/- ---------------------------------------------------------------------
Element-wise characterization of `parseResponse` (shared lemmas).
--------------------------------------------------------------------- -/

lemma parseResponse_menus_getD (raw : RawMealViewerResponse) (i : Nat)
    (hi : i < raw.menuSchedules.length) :
    (parseResponse raw).menus.getD i noDailyMenu =
      { date := (raw.menuSchedules.getD i noSchedule).dateFull
        school := mapSchool raw.physicalLocation
        meals := (raw.menuSchedules.getD i noSchedule).menuBlocks.map mapMenuBlock } :=
  getD_map_of_lt
    (fun schedule : RawMenuSchedule =>
      ({ date := schedule.dateFull
         school := mapSchool raw.physicalLocation
         meals := schedule.menuBlocks.map mapMenuBlock } : DailyMenu))
    raw.menuSchedules i noSchedule noDailyMenu hi

lemma parseResponse_meals_getD (raw : RawMealViewerResponse) (i j : Nat)
    (hi : i < raw.menuSchedules.length)
    (hj : j < (raw.menuSchedules.getD i noSchedule).menuBlocks.length) :
    ((parseResponse raw).menus.getD i noDailyMenu).meals.getD j noMenuBlock =
      mapMenuBlock ((raw.menuSchedules.getD i noSchedule).menuBlocks.getD j noBlock) := by
  rw [parseResponse_menus_getD raw i hi]
  exact getD_map_of_lt mapMenuBlock _ j noBlock noMenuBlock hj

lemma parseResponse_lines_getD (raw : RawMealViewerResponse) (i j k : Nat)
    (hi : i < raw.menuSchedules.length)
    (hj : j < (raw.menuSchedules.getD i noSchedule).menuBlocks.length)
    (hk : k < ((raw.menuSchedules.getD i noSchedule).menuBlocks.getD j
        noBlock).cafeteriaLineList.length) :
    (((parseResponse raw).menus.getD i noDailyMenu).meals.getD j
        noMenuBlock).cafeteriaLines.getD k noCafLine =
      mapCafeteriaLine (((raw.menuSchedules.getD i noSchedule).menuBlocks.getD j
        noBlock).cafeteriaLineList.getD k noLine) := by
  rw [parseResponse_meals_getD raw i j hi hj]
  exact getD_map_of_lt mapCafeteriaLine _ k noLine noCafLine hk

lemma parseResponse_items_getD (raw : RawMealViewerResponse) (i j k l : Nat)
    (hi : i < raw.menuSchedules.length)
    (hj : j < (raw.menuSchedules.getD i noSchedule).menuBlocks.length)
    (hk : k < ((raw.menuSchedules.getD i noSchedule).menuBlocks.getD j
        noBlock).cafeteriaLineList.length)
    (hl : l < (((raw.menuSchedules.getD i noSchedule).menuBlocks.getD j
        noBlock).cafeteriaLineList.getD k noLine).foodItemList.length) :
    ((((parseResponse raw).menus.getD i noDailyMenu).meals.getD j
        noMenuBlock).cafeteriaLines.getD k noCafLine).items.getD l noMenuItem =
      mapFoodItem ((((raw.menuSchedules.getD i noSchedule).menuBlocks.getD j
        noBlock).cafeteriaLineList.getD k noLine).foodItemList.getD l noFoodItem) := by
  rw [parseResponse_lines_getD raw i j k hi hj hk]
  exact getD_map_of_lt mapFoodItem _ l noFoodItem noMenuItem hl

lemma parseResponse_menus_length (raw : RawMealViewerResponse) :
    (parseResponse raw).menus.length = raw.menuSchedules.length := by
  simp [parseResponse]

lemma parseResponse_meals_length (raw : RawMealViewerResponse) (i : Nat)
    (hi : i < raw.menuSchedules.length) :
    ((parseResponse raw).menus.getD i noDailyMenu).meals.length
      = (raw.menuSchedules.getD i noSchedule).menuBlocks.length := by
  rw [parseResponse_menus_getD raw i hi]
  exact List.length_map _ _

lemma parseResponse_lines_length (raw : RawMealViewerResponse) (i j : Nat)
    (hi : i < raw.menuSchedules.length)
    (hj : j < (raw.menuSchedules.getD i noSchedule).menuBlocks.length) :
    (((parseResponse raw).menus.getD i noDailyMenu).meals.getD j
        noMenuBlock).cafeteriaLines.length
      = ((raw.menuSchedules.getD i noSchedule).menuBlocks.getD j
          noBlock).cafeteriaLineList.length := by
  rw [parseResponse_meals_getD raw i j hi hj]
  exact List.length_map _ _

lemma parseResponse_items_length (raw : RawMealViewerResponse) (i j k : Nat)
    (hi : i < raw.menuSchedules.length)
    (hj : j < (raw.menuSchedules.getD i noSchedule).menuBlocks.length)
    (hk : k < ((raw.menuSchedules.getD i noSchedule).menuBlocks.getD j
        noBlock).cafeteriaLineList.length) :
    ((((parseResponse raw).menus.getD i noDailyMenu).meals.getD j
        noMenuBlock).cafeteriaLines.getD k noCafLine).items.length
      = (((raw.menuSchedules.getD i noSchedule).menuBlocks.getD j
          noBlock).cafeteriaLineList.getD k noLine).foodItemList.length := by
  rw [parseResponse_lines_getD raw i j k hi hj hk]
  exact List.length_map _ _

/-- The `l`-th raw food item of line `k` of block `j` of day `i` of a raw
response. -/
def rawItemAt (raw : RawMealViewerResponse) (i j k l : Nat) : RawFoodItem :=
  (((raw.menuSchedules.getD i noSchedule).menuBlocks.getD j
    noBlock).cafeteriaLineList.getD k noLine).foodItemList.getD l noFoodItem

/-- The `l`-th mapped item of line `k` of meal `j` of daily menu `i` of
the mapped result. -/
def itemAt (raw : RawMealViewerResponse) (i j k l : Nat) : MenuItem :=
  ((((parseResponse raw).menus.getD i noDailyMenu).meals.getD j
    noMenuBlock).cafeteriaLines.getD k noCafLine).items.getD l noMenuItem

/-- A sample raw response used by the witnesses: one day-schedule, one
block named `"BreakfastLunch"`, one line with two items, the first of
which has an empty-string `item_AltName`. -/
def sampleRaw : RawMealViewerResponse :=
  { physicalLocation :=
      ⟨"Elmwood Elementary", "1 Main St", "Springfield", some "IL", none, none⟩
    menuSchedules := [
      { dateFull := "2025-01-15T00:00:00"
        menuBlocks := [
          { blockName := "BreakfastLunch"
            cafeteriaLineList := [
              { name := "Main Line"
                foodItemList := [
                  ⟨"Pizza", some "", none, "Entree", "1 slice"⟩,
                  ⟨"Milk", some "2% Milk", some "Cold", "Milk", "8 oz"⟩] }] }] }] }

/-- C3: for every menu block of a raw response, the mapped `mealPeriod`
is decided by case-insensitive substring match on the block's name in
the fixed priority order breakfast, lunch, dinner, snack — first match
wins — defaulting to Lunch when no keyword matches. -/
theorem parseResponse_mealPeriod_priority (raw : RawMealViewerResponse) (i j : Nat)
    (hi : i < raw.menuSchedules.length)
    (hj : j < (raw.menuSchedules.getD i noSchedule).menuBlocks.length) :
    (((parseResponse raw).menus.getD i noDailyMenu).meals.getD j
        noMenuBlock).mealPeriod =
      (let n := jsToLower ((raw.menuSchedules.getD i noSchedule).menuBlocks.getD j
          noBlock).blockName
       if jsIncludes n "breakfast" then MealPeriod.Breakfast
       else if jsIncludes n "lunch" then MealPeriod.Lunch
       else if jsIncludes n "dinner" then MealPeriod.Dinner
       else if jsIncludes n "snack" then MealPeriod.Snack
       else MealPeriod.Lunch) := by
  rw [parseResponse_meals_getD raw i j hi hj]
  rfl

/-- C3 witness: the sample block named `"BreakfastLunch"` resolves to
`Breakfast` (the `"breakfast"` branch is checked first). -/
theorem parseResponse_mealPeriod_priority_witness :
    (((parseResponse sampleRaw).menus.getD 0 noDailyMenu).meals.getD 0
        noMenuBlock).mealPeriod = MealPeriod.Breakfast := by
  rw [parseResponse_mealPeriod_priority sampleRaw 0 0 (by decide) (by decide)]
  decide

/-- C5: the mapped result has exactly one `DailyMenu` per raw
day-schedule (including zero: the length equality is unconditional) and
the result's school is mapped once from the top-level location; at every
in-range index, meals, cafeteria lines and items correspond
index-by-index to the raw blocks, lines and items (same lengths, same
positions — no sorting, no deduplication), and the `DailyMenu` there
carries the same `School` value as the result. -/
theorem parseResponse_shape_preserved (raw : RawMealViewerResponse) (i j k l : Nat) :
    (parseResponse raw).menus.length = raw.menuSchedules.length
    ∧ (parseResponse raw).school = mapSchool raw.physicalLocation
    ∧ (i < raw.menuSchedules.length →
        ((parseResponse raw).menus.getD i noDailyMenu).school
          = (parseResponse raw).school)
    ∧ (i < raw.menuSchedules.length →
        ((parseResponse raw).menus.getD i noDailyMenu).meals.length
          = (raw.menuSchedules.getD i noSchedule).menuBlocks.length)
    ∧ (i < raw.menuSchedules.length →
       j < (raw.menuSchedules.getD i noSchedule).menuBlocks.length →
        (((parseResponse raw).menus.getD i noDailyMenu).meals.getD j
            noMenuBlock).cafeteriaLines.length
          = ((raw.menuSchedules.getD i noSchedule).menuBlocks.getD j
              noBlock).cafeteriaLineList.length)
    ∧ (i < raw.menuSchedules.length →
       j < (raw.menuSchedules.getD i noSchedule).menuBlocks.length →
       k < ((raw.menuSchedules.getD i noSchedule).menuBlocks.getD j
          noBlock).cafeteriaLineList.length →
        ((((parseResponse raw).menus.getD i noDailyMenu).meals.getD j
            noMenuBlock).cafeteriaLines.getD k noCafLine).name
          = (((raw.menuSchedules.getD i noSchedule).menuBlocks.getD j
              noBlock).cafeteriaLineList.getD k noLine).name
        ∧ ((((parseResponse raw).menus.getD i noDailyMenu).meals.getD j
            noMenuBlock).cafeteriaLines.getD k noCafLine).items.length
          = (((raw.menuSchedules.getD i noSchedule).menuBlocks.getD j
              noBlock).cafeteriaLineList.getD k noLine).foodItemList.length)
    ∧ (i < raw.menuSchedules.length →
       j < (raw.menuSchedules.getD i noSchedule).menuBlocks.length →
       k < ((raw.menuSchedules.getD i noSchedule).menuBlocks.getD j
          noBlock).cafeteriaLineList.length →
       l < (((raw.menuSchedules.getD i noSchedule).menuBlocks.getD j
          noBlock).cafeteriaLineList.getD k noLine).foodItemList.length →
        itemAt raw i j k l = mapFoodItem (rawItemAt raw i j k l)) := by
  refine ⟨parseResponse_menus_length raw, rfl, fun hi => ?_,
    fun hi => parseResponse_meals_length raw i hi,
    fun hi hj => parseResponse_lines_length raw i j hi hj,
    fun hi hj hk => ⟨?_, parseResponse_items_length raw i j k hi hj hk⟩,
    fun hi hj hk hl => parseResponse_items_getD raw i j k l hi hj hk hl⟩
  · rw [parseResponse_menus_getD raw i hi]
    rfl
  · rw [parseResponse_lines_getD raw i j k hi hj hk]
    rfl

/-- A raw response with no day-schedules, for the zero case of the shape
invariant. -/
def emptyRaw : RawMealViewerResponse :=
  ⟨⟨"Elmwood Elementary", "1 Main St", "Springfield", some "IL", none, none⟩, []⟩

/-- C5 witness: a response with no day-schedules maps to zero menus; the
sample response yields one daily menu whose single line keeps its two
items in order (the second item is the mapped second raw item), and
whose daily menu shares the result's school. -/
theorem parseResponse_shape_preserved_witness :
    (parseResponse emptyRaw).menus.length = 0
    ∧ (parseResponse sampleRaw).menus.length = 1
    ∧ ((((parseResponse sampleRaw).menus.getD 0 noDailyMenu).meals.getD 0
        noMenuBlock).cafeteriaLines.getD 0 noCafLine).items.length = 2
    ∧ ((parseResponse sampleRaw).menus.getD 0 noDailyMenu).school
        = (parseResponse sampleRaw).school
    ∧ itemAt sampleRaw 0 0 0 1 = mapFoodItem (rawItemAt sampleRaw 0 0 0 1) := by
  have h0 := parseResponse_shape_preserved emptyRaw 0 0 0 0
  have h := parseResponse_shape_preserved sampleRaw 0 0 0 1
  exact ⟨h0.1.trans (by decide), h.1.trans (by decide),
    ((h.2.2.2.2.2.1 (by decide) (by decide) (by decide)).2).trans (by decide),
    h.2.2.1 (by decide),
    h.2.2.2.2.2.2 (by decide) (by decide) (by decide) (by decide)⟩

/-- C6: each mapped item copies `name`, `foodType` and `servingSize`
verbatim from the raw item, and its optional `altName`/`description` are
present exactly when the raw value is a nonempty string — absent raw
fields map to absent, never to defaults. -/
theorem parseResponse_item_fields (raw : RawMealViewerResponse) (i j k l : Nat)
    (hi : i < raw.menuSchedules.length)
    (hj : j < (raw.menuSchedules.getD i noSchedule).menuBlocks.length)
    (hk : k < ((raw.menuSchedules.getD i noSchedule).menuBlocks.getD j
        noBlock).cafeteriaLineList.length)
    (hl : l < (((raw.menuSchedules.getD i noSchedule).menuBlocks.getD j
        noBlock).cafeteriaLineList.getD k noLine).foodItemList.length) :
    (itemAt raw i j k l).name = (rawItemAt raw i j k l).item_Name
    ∧ (itemAt raw i j k l).type = (rawItemAt raw i j k l).item_Type
    ∧ (itemAt raw i j k l).servingSize = (rawItemAt raw i j k l).serving_Size
    ∧ (∀ s, (itemAt raw i j k l).altName = some s ↔
        ((rawItemAt raw i j k l).item_AltName = some s ∧ s ≠ ""))
    ∧ ((rawItemAt raw i j k l).item_AltName = none →
        (itemAt raw i j k l).altName = none)
    ∧ (∀ s, (itemAt raw i j k l).description = some s ↔
        ((rawItemAt raw i j k l).description = some s ∧ s ≠ ""))
    ∧ ((rawItemAt raw i j k l).description = none →
        (itemAt raw i j k l).description = none) := by
  have hmain : itemAt raw i j k l = mapFoodItem (rawItemAt raw i j k l) :=
    parseResponse_items_getD raw i j k l hi hj hk hl
  rw [hmain]
  set r := rawItemAt raw i j k l with hr
  refine ⟨rfl, rfl, rfl, ?_, ?_, ?_, ?_⟩
  · intro s
    cases hA : r.item_AltName with
    | none => simp [mapFoodItem, jsOrUndefined, hA]
    | some t =>
      by_cases ht : t = ""
      · subst ht
        simp only [mapFoodItem, jsOrUndefined, hA, if_pos rfl]
        simp
        exact fun h => h.symm
      · simp only [mapFoodItem, jsOrUndefined, hA, if_neg ht, Option.some.injEq]
        exact ⟨fun h => ⟨h, fun e => ht (h.trans e)⟩, fun h => h.1⟩
  · intro hA
    simp [mapFoodItem, jsOrUndefined, hA]
  · intro s
    cases hA : r.description with
    | none => simp [mapFoodItem, jsOrUndefined, hA]
    | some t =>
      by_cases ht : t = ""
      · subst ht
        simp only [mapFoodItem, jsOrUndefined, hA, if_pos rfl]
        simp
        exact fun h => h.symm
      · simp only [mapFoodItem, jsOrUndefined, hA, if_neg ht, Option.some.injEq]
        exact ⟨fun h => ⟨h, fun e => ht (h.trans e)⟩, fun h => h.1⟩
  · intro hA
    simp [mapFoodItem, jsOrUndefined, hA]

/-- C6 witness: the sample item `"Pizza"` has its name copied verbatim,
its empty-string raw `item_AltName` mapped to absent, and its absent raw
`description` mapped to absent. -/
theorem parseResponse_item_fields_witness :
    (itemAt sampleRaw 0 0 0 0).name = "Pizza"
    ∧ (itemAt sampleRaw 0 0 0 0).altName = none
    ∧ (itemAt sampleRaw 0 0 0 0).description = none := by
  have h := parseResponse_item_fields sampleRaw 0 0 0 0
    (by decide) (by decide) (by decide) (by decide)
  refine ⟨h.1.trans (by decide), ?_, h.2.2.2.2.2.2 (by decide)⟩
  have h4 := h.2.2.2.1 ""
  by_cases hx : (itemAt sampleRaw 0 0 0 0).altName = none
  · exact hx
  · cases hy : (itemAt sampleRaw 0 0 0 0).altName with
    | none => rfl
    | some t =>
      exfalso
      have := (h.2.2.2.1 t).mp hy
      have hz : (rawItemAt sampleRaw 0 0 0 0).item_AltName = some "" := by decide
      rw [hz] at this
      exact this.2 (by
        have := this.1
        injection this with hinj
        exact hinj.symm)

/-- C4: a start date string that does not split into exactly three
dash-separated components makes `getMenu` fail with an `INVALID_DATE`
error whose message contains the offending input, before any network
request is issued (`requestedUrl = none`, for every transport outcome),
and the error classifier can never have produced this kind. -/
theorem getMenu_invalid_date (fetch : FetchOutcome) (request : GetMenuRequest)
    (s : String) (hs : request.startDate = .str s)
    (hbad : (jsSplitDash s).length ≠ 3) :
    (getMenu fetch request).result
        = .error ⟨"Invalid date format: " ++ s ++ ". Expected YYYY-MM-DD",
            ErrCode.INVALID_DATE⟩
    ∧ (getMenu fetch request).requestedUrl = none
    ∧ List.IsInfix s.data
        ("Invalid date format: " ++ s ++ ". Expected YYYY-MM-DD").data
    ∧ (∀ f : Failure, (handleError f).code ≠ ErrCode.INVALID_DATE) := by
  have hfd : formatDate request.startDate
      = .error ⟨"Invalid date format: " ++ s ++ ". Expected YYYY-MM-DD",
          ErrCode.INVALID_DATE⟩ := by
    rw [hs]
    simp [formatDate, hbad]
  refine ⟨?_, ?_, ?_, ?_⟩
  · simp [getMenu, hfd]
  · simp [getMenu, hfd]
  · rw [String.data_append, String.data_append]
    exact List.infix_append _ _ _
  · intro f
    unfold handleError
    split_ifs <;> simp

/-- C4 witness: `"invalid-date"` splits into two components, so the call
fails locally with `INVALID_DATE` and no URL is requested. -/
theorem getMenu_invalid_date_witness :
    (getMenu (.ok sampleRaw) ⟨"Elm", .str "invalid-date", none⟩).result
        = .error ⟨"Invalid date format: invalid-date. Expected YYYY-MM-DD",
            ErrCode.INVALID_DATE⟩
    ∧ (getMenu (.ok sampleRaw) ⟨"Elm", .str "invalid-date", none⟩).requestedUrl
        = none := by
  have h := getMenu_invalid_date (.ok sampleRaw) ⟨"Elm", .str "invalid-date", none⟩
    "invalid-date" rfl (by decide)
  exact ⟨h.1, h.2.1⟩

/-- C7: when the request's `endDate` is omitted, the built URL's end date
segment equals its start date segment. -/
theorem getMenu_endDate_defaults (fetch : FetchOutcome) (request : GetMenuRequest)
    (s : String) (hend : request.endDate = none)
    (hs : formatDate request.startDate = .ok s) :
    (getMenu fetch request).requestedUrl
      = some (menuUrl request.schoolName s s) := by
  cases fetch <;> simp [getMenu, hs, hend]

/-- C7 witness: with no `endDate`, both date segments of the URL are the
formatted start date. -/
theorem getMenu_endDate_defaults_witness :
    (getMenu (.ok sampleRaw) ⟨"Elm", .str "2025-01-15", none⟩).requestedUrl
      = some "/school/Elm/01-15-2025/01-15-2025/" :=
  getMenu_endDate_defaults (.ok sampleRaw) ⟨"Elm", .str "2025-01-15", none⟩
    "01-15-2025" rfl rfl

/-- C9: an `endDate` that is the empty string is falsy, so `getMenu`
treats it exactly as an omitted `endDate` (the end segment defaults to
the start segment) instead of applying the three-component date check to
it and failing. -/
theorem getMenu_empty_endDate (fetch : FetchOutcome) (request : GetMenuRequest)
    (h : request.endDate = some (.str "")) :
    getMenu fetch request = getMenu fetch
      { schoolName := request.schoolName
        startDate := request.startDate
        endDate := none } := by
  obtain ⟨name, start, endD⟩ := request
  simp only at h
  subst h
  cases hfd : formatDate start <;> cases fetch <;> simp [getMenu, hfd, isTruthy]

/-- C9 witness: an empty-string `endDate` produces the same trace as the
omitted-`endDate` request. -/
theorem getMenu_empty_endDate_witness :
    getMenu (.ok sampleRaw) ⟨"Elm", .str "2025-01-15", some (.str "")⟩
      = getMenu (.ok sampleRaw) ⟨"Elm", .str "2025-01-15", none⟩ :=
  getMenu_empty_endDate (.ok sampleRaw)
    ⟨"Elm", .str "2025-01-15", some (.str "")⟩ rfl

/-- C10: falsy configuration values are silently replaced by the
defaults: a timeout of `0`, an empty-string `baseURL` and an
empty-string `userAgent` each yield the corresponding default instead of
the caller-supplied value. -/
theorem mkClient_falsy_defaults (config : MealViewerClientConfig) :
    (config.timeout = some 0 → (mkClient config).timeout = 30000)
    ∧ (config.baseURL = some "" →
        (mkClient config).baseURL = "https://api.mealviewer.com/api/v4")
    ∧ (config.userAgent = some "" →
        (mkClient config).userAgent = "BrandCast/FamilyCast MealViewer Integration") := by
  refine ⟨fun h => ?_, fun h => ?_, fun h => ?_⟩ <;> simp [mkClient, h]

/-- C10 witness: a config with timeout `0` and empty-string `baseURL`
and `userAgent` gets all three defaults. -/
theorem mkClient_falsy_defaults_witness :
    (mkClient ⟨some "", some 0, some "", none⟩).timeout = 30000
    ∧ (mkClient ⟨some "", some 0, some "", none⟩).baseURL
        = "https://api.mealviewer.com/api/v4"
    ∧ (mkClient ⟨some "", some 0, some "", none⟩).userAgent
        = "BrandCast/FamilyCast MealViewer Integration" := by
  have h := mkClient_falsy_defaults ⟨some "", some 0, some "", none⟩
  exact ⟨h.1 rfl, h.2.1 rfl, h.2.2 rfl⟩
